import Mathlib

/-!
Shallow embedding of the OzonAnal metrics engine
(src/enhanced_analyzer.py: class EnhancedOrderAnalyzer;
 src/utils.py: class OrderAnalyzer), with theorems settling the
claims about its natural-language specification.

Modelling conventions, used throughout:

* A pandas row becomes an `OrderRecord`.  Timestamp columns are modelled
  post-parse: `pd.to_datetime(..., errors=coerce)` yields null (`none`)
  for unparseable values, so a timestamp field is an `Option Timestamp`.
  Numeric columns (`pd.to_numeric` after the comma-to-dot replacement)
  are modelled as exact rationals `ℚ`; the claims under verification do
  not exercise float rounding error or NaN numerics in those columns.
* `float` arithmetic of the source is modelled by exact `ℚ` arithmetic.
  `pandas.round(n)` / `numpy.round(n)` round half to even on the exact
  value; this is `roundTo n` below.
* pandas boolean filtering becomes `List.filter`; a filter such as
  `delivery_time >= 0` drops NaN entries, which is modelled by
  `List.filterMap` producing only the defined values before the filter.
* `mean` of a nonempty list is `sum / length`; every use below is either
  guarded by a nonemptiness check in the source or documented where the
  source would produce NaN.
-/

attribute [local semireducible] Rat.mul Rat.inv Rat.add Rat.sub Rat.ofScientific

/-- Calendar timestamp `YYYY-MM-DD HH:MM` as parsed by `pd.to_datetime`
(seconds are always zero in the observed formats, so they are omitted). -/
structure Timestamp where
  year : ℤ
  month : ℤ
  day : ℤ
  hour : ℤ
  minute : ℤ
deriving DecidableEq

/-- Days since 1970-01-01 of a civil date (proleptic Gregorian calendar),
the standard days-from-civil algorithm.  This models the day arithmetic
that pandas performs on datetime64 values. -/
def daysFromCivil (y m d : ℤ) : ℤ :=
  let y2 := y - (if m ≤ 2 then 1 else 0)
  let era := Int.fdiv y2 400
  let yoe := y2 - era * 400
  let doy := Int.fdiv (153 * (m + (if 2 < m then (-3) else 9)) + 2) 5 + d - 1
  let doe := yoe * 365 + Int.fdiv yoe 4 - Int.fdiv yoe 100 + doy
  era * 146097 + doe - 719468

/-- Minutes since the epoch; timestamp differences in the source are
timedeltas, modelled as differences of this value. -/
def toMinutes (t : Timestamp) : ℤ :=
  1440 * daysFromCivil t.year t.month t.day + 60 * t.hour + t.minute

/-- One normalized order row (extended 25-column schema; the columns the
metrics engine reads).  Field names translate the Cyrillic labels:
status = Статус, acceptedAt = Принят в обработку, deliveredAt = Дата
доставки, transferredAt = Фактическая дата передачи в доставку,
amount = Сумма отправления, discountAmount = Скидка руб,
discountPercent = Скидка %, quantity = Количество, sku = Артикул,
productName = Наименование товара, weightKg = Объемный вес товаров, кг. -/
structure OrderRecord where
  status : String
  acceptedAt : Option Timestamp
  deliveredAt : Option Timestamp
  transferredAt : Option Timestamp
  amount : ℚ
  discountAmount : ℚ
  discountPercent : ℚ
  quantity : ℚ
  sku : String
  productName : String
  weightKg : Option ℚ
deriving DecidableEq

/-- Floor of a rational as an integer, computed from the reduced
numerator and denominator (kernel-evaluable). -/
def qfloor (q : ℚ) : ℤ := Int.fdiv q.num q.den

/-- Round a rational to the nearest integer, ties to even — the rounding
of `numpy.round` / `pandas.DataFrame.round` (idealized over exact
rationals; the claims only evaluate it on values that are exactly
representable at the rounded precision). -/
def roundHalfEvenInt (q : ℚ) : ℤ :=
  let n := qfloor q
  let f := q - n
  if f < 1/2 then n
  else if 1/2 < f then n + 1
  else if n % 2 = 0 then n else n + 1

/-- Model of `x.round(p)` of the source: round half to even at `p` decimal places. -/
def roundTo (p : ℕ) (q : ℚ) : ℚ := (roundHalfEvenInt (q * 10 ^ p) : ℚ) / 10 ^ p

/-- Model of `Series.mean()`: sum divided by length (0 for the empty list; every
use in the engine on a possibly-empty list is behind a nonemptiness
guard in the source). -/
def meanQ (l : List ℚ) : ℚ := if l.length = 0 then 0 else l.sum / l.length

/-- Insert with a boolean "goes before or at" test (insertion step of
insertion sort). -/
def orderedInsertBy (le : α → α → Bool) (a : α) : List α → List α
  | [] => [a]
  | b :: l => if le a b then a :: b :: l else b :: orderedInsertBy le a l

/-- Insertion sort by a boolean comparison; models `sort_values` /
`groupby(sort=True)` key ordering.  (pandas uses quicksort; only the
resulting order matters to the engine, and no verified claim depends on
tie order.) -/
def sortBy (le : α → α → Bool) : List α → List α
  | [] => []
  | a :: l => orderedInsertBy le a (sortBy le l)

/-- Model of `Series.median()`: middle element of the sorted values, or the mean
of the two middle elements (0 for the empty list, which the source
guards against). -/
def medianQ (l : List ℚ) : ℚ :=
  let s := sortBy (fun a b => decide (a ≤ b)) l
  let n := s.length
  if n = 0 then 0
  else if n % 2 = 1 then s.getD (n / 2) 0
  else (s.getD (n / 2 - 1) 0 + s.getD (n / 2) 0) / 2

/-- Sample variance (`ddof = 1`).  The source reports the sample standard
deviation `Series.std()`; its square is kept because the square root of
a rational is irrational in general.  It is zero exactly when the
std in the source is zero, and no claim reads a nonzero std.  (For a single
element pandas yields NaN; modelled as 0, unexercised by the claims.) -/
def sampleVar (l : List ℚ) : ℚ :=
  if l.length ≤ 1 then 0
  else (l.map (fun x => (x - meanQ l) ^ 2)).sum / ((l.length : ℚ) - 1)

/-- Distinct keys in order of first appearance. -/
def dedupKeys [DecidableEq κ] (l : List κ) : List κ :=
  l.foldl (fun acc k => if k ∈ acc then acc else acc ++ [k]) []

/-- Model of `DataFrame.groupby(key)`: the rows bucketed by key value.  Key order
is first appearance (pandas sorts group keys; every consumer in the
engine either re-sorts the result or is order-insensitive for the
verified claims). -/
def groupByKey [DecidableEq κ] (key : α → κ) (l : List α) : List (κ × List α) :=
  (dedupKeys (l.map key)).map (fun k => (k, l.filter (fun x => decide (key x = k))))

/-- Result of `EnhancedOrderAnalyzer.get_basic_metrics`
(enhanced_analyzer.py:63-91). -/
structure BasicMetrics where
  total_orders : ℕ
  delivered_orders : ℕ
  cancelled_orders : ℕ
  in_delivery : ℕ
  delivery_rate : ℚ
  cancellation_rate : ℚ
  total_revenue : ℚ
  avg_order_value : ℚ
  total_discount_amount : ℚ
deriving DecidableEq

/-- Model of `EnhancedOrderAnalyzer.get_basic_metrics` (enhanced_analyzer.py:63-91).
Revenue and mean order value are taken over the delivered cohort only,
from the `Сумма отправления` column (present in the extended schema);
the discount total is over all records. -/
def get_basic_metrics (rs : List OrderRecord) : BasicMetrics :=
  let total_orders := rs.length
  let delivered_df := rs.filter (fun r => r.status == "Доставлен")
  let delivered_orders := delivered_df.length
  let cancelled_orders := (rs.filter (fun r => r.status == "Отменён")).length
  let in_delivery := (rs.filter (fun r => r.status == "Доставляется")).length
  { total_orders := total_orders
    delivered_orders := delivered_orders
    cancelled_orders := cancelled_orders
    in_delivery := in_delivery
    delivery_rate :=
      if 0 < total_orders then (delivered_orders : ℚ) / (total_orders : ℚ) * 100 else 0
    cancellation_rate :=
      if 0 < total_orders then (cancelled_orders : ℚ) / (total_orders : ℚ) * 100 else 0
    total_revenue :=
      if 0 < delivered_df.length then (delivered_df.map (fun r => r.amount)).sum else 0
    avg_order_value :=
      if 0 < delivered_df.length then meanQ (delivered_df.map (fun r => r.amount)) else 0
    total_discount_amount := (rs.map (fun r => r.discountAmount)).sum }

/-- A record with every optional field absent and every numeric field
zero except quantity 1; concrete scenario records are updates of it. -/
def recDefault : OrderRecord :=
  { status := "", acceptedAt := none, deliveredAt := none, transferredAt := none
    amount := 0, discountAmount := 0, discountPercent := 0, quantity := 1
    sku := "", productName := "", weightKg := none }

/-- Scenario A, record 1: delivered, accepted 2024-01-01 00:00,
delivered 2024-01-04 00:00, amount 1000. -/
def recA1 : OrderRecord :=
  { recDefault with
      status := "Доставлен"
      acceptedAt := some ⟨2024, 1, 1, 0, 0⟩
      deliveredAt := some ⟨2024, 1, 4, 0, 0⟩
      amount := 1000 }

/-- Scenario A, record 2: cancelled, amount 500. -/
def recA2 : OrderRecord := { recDefault with status := "Отменён", amount := 500 }

/-- C1: on the two-record input of E2E scenario A (one delivered order,
accepted 2024-01-01 00:00, delivered 2024-01-04 00:00, amount 1000; one
cancelled order, amount 500), `get_basic_metrics` returns total_orders 2,
delivered_orders 1, cancelled_orders 1, delivery_rate 50, total_revenue
1000 (the amount of the cancelled record is excluded) and avg_order_value
1000. -/
theorem basic_metrics_scenario_A :
    get_basic_metrics [recA1, recA2] =
      { total_orders := 2, delivered_orders := 1, cancelled_orders := 1
        in_delivery := 0, delivery_rate := 50, cancellation_rate := 50
        total_revenue := 1000, avg_order_value := 1000
        total_discount_amount := 0 } := by
  decide

/-- Delivery time in whole days, `(Дата доставки - Принят в обработку).dt.days`
(enhanced_analyzer.py:374-377): the floor of the fractional day difference
(the `days` component of a pandas Timedelta), `none` when either timestamp
is null (pandas NaT propagates to NaN, which the subsequent `>= 0` filter
drops). -/
def deliveryTimeDays (r : OrderRecord) : Option ℤ :=
  match r.deliveredAt, r.acceptedAt with
  | some d, some a => some (Int.fdiv (toMinutes d - toMinutes a) 1440)
  | _, _ => none

/-- The retained delivery-time cohort of
`EnhancedOrderAnalyzer.analyze_delivery_performance`
(enhanced_analyzer.py:363-381): delivered records, defined delivery time,
then the two outlier filters `delivery_time >= 0` and
`delivery_time <= 30`. -/
def retainedDeliveryTimes (rs : List OrderRecord) : List ℤ :=
  (((rs.filter (fun r => r.status == "Доставлен")).filterMap deliveryTimeDays).filter
      (fun t => decide (0 ≤ t))).filter (fun t => decide (t ≤ 30))

/-- Result of `EnhancedOrderAnalyzer.analyze_delivery_performance`
(enhanced_analyzer.py:361-405).  `delivery_time_std` is modelled by the
sample variance (see `sampleVar`).  `total_delivered` is `none` in the
two empty-cohort branches: the early-return dicts of the source omit that
key. -/
structure DeliveryPerformance where
  avg_delivery_time : ℚ
  median_delivery_time : ℚ
  delivery_time_std : ℚ
  on_time_delivery_rate : ℚ
  total_delivered : Option ℕ
deriving DecidableEq

/-- Model of `EnhancedOrderAnalyzer.analyze_delivery_performance`
(enhanced_analyzer.py:361-405). -/
def analyze_delivery_performance (rs : List OrderRecord) : DeliveryPerformance :=
  let delivered_orders := rs.filter (fun r => r.status == "Доставлен")
  if delivered_orders.length = 0 then
    { avg_delivery_time := 0, median_delivery_time := 0, delivery_time_std := 0
      on_time_delivery_rate := 0, total_delivered := none }
  else
    let times := retainedDeliveryTimes rs
    if times.length = 0 then
      { avg_delivery_time := 0, median_delivery_time := 0, delivery_time_std := 0
        on_time_delivery_rate := 0, total_delivered := none }
    else
      let q : List ℚ := times.map (fun t => (t : ℚ))
      { avg_delivery_time := meanQ q
        median_delivery_time := medianQ q
        delivery_time_std := sampleVar q
        on_time_delivery_rate :=
          ((times.filter (fun t => decide (t ≤ 5))).length : ℚ) / (times.length : ℚ) * 100
        total_delivered := some times.length }

/-- Model of `OrderAnalyzer._prepare_data` (utils.py:103-126): after the per-field
date and numeric coercions (modelled as already applied to the record
fields), `df.dropna(subset=[Принят в обработку])` removes every row whose
acceptance timestamp is null. -/
def utils_prepare_data (rs : List OrderRecord) : List OrderRecord :=
  rs.filter (fun r => r.acceptedAt.isSome)

/-- Model of `EnhancedOrderAnalyzer._prepare_data` (enhanced_analyzer.py:28-61):
converts the date columns (`errors=coerce`) and numeric columns in place
and returns `df_clean`.  No `dropna` is performed, so the row sequence is
unchanged; with the per-field coercions modelled as already applied
(`Option` timestamps are post-coercion values), the function is the
identity on the record sequence. -/
def enhanced_prepare_data (rs : List OrderRecord) : List OrderRecord := rs

/-- Fractional delivery times of `OrderAnalyzer.calculate_delivery_metrics`
(utils.py:140-142): `(Дата доставки - Принят в обработку)
.dt.total_seconds() / (24*3600)` over the delivered cohort.  Pairs with a
null timestamp yield NaN, which `Series.mean`/`median` skip; modelled by
emitting only the defined differences.  No window filter is applied. -/
def utilsDeliveryTimes (rs : List OrderRecord) : List ℚ :=
  (rs.filter (fun r => r.status == "Доставлен")).filterMap (fun r =>
    match r.deliveredAt, r.acceptedAt with
    | some d, some a => some (((toMinutes d - toMinutes a : ℤ) : ℚ) / 1440)
    | _, _ => none)

/-- Processing times of `OrderAnalyzer.calculate_delivery_metrics`
(utils.py:145-146): transfer-to-carrier minus acceptance, in days. -/
def utilsProcessingTimes (rs : List OrderRecord) : List ℚ :=
  (rs.filter (fun r => r.status == "Доставлен")).filterMap (fun r =>
    match r.transferredAt, r.acceptedAt with
    | some t, some a => some (((toMinutes t - toMinutes a : ℤ) : ℚ) / 1440)
    | _, _ => none)

/-- Shipping times of `OrderAnalyzer.calculate_delivery_metrics`
(utils.py:149-150): delivery minus transfer-to-carrier, in days. -/
def utilsShippingTimes (rs : List OrderRecord) : List ℚ :=
  (rs.filter (fun r => r.status == "Доставлен")).filterMap (fun r =>
    match r.deliveredAt, r.transferredAt with
    | some d, some t => some (((toMinutes d - toMinutes t : ℤ) : ℚ) / 1440)
    | _, _ => none)

/-- Result of `OrderAnalyzer.calculate_delivery_metrics` (utils.py:128-157). -/
structure DeliveryMetrics where
  avg_delivery_time : ℚ
  median_delivery_time : ℚ
  avg_processing_time : ℚ
  avg_shipping_time : ℚ
deriving DecidableEq

/-- Model of `OrderAnalyzer.calculate_delivery_metrics` (utils.py:128-157), the
basic-variant delivery metrics.  It applies no `[0, 30]` window filter to
the computed delivery times.  (When the delivered cohort is nonempty but
a time series is all-NaN, pandas would yield NaN; modelled as 0 via
`meanQ`, a case no verified claim exercises.) -/
def calculate_delivery_metrics (rs : List OrderRecord) : DeliveryMetrics :=
  if (rs.filter (fun r => r.status == "Доставлен")).length = 0 then
    { avg_delivery_time := 0, median_delivery_time := 0
      avg_processing_time := 0, avg_shipping_time := 0 }
  else
    { avg_delivery_time := meanQ (utilsDeliveryTimes rs)
      median_delivery_time := medianQ (utilsDeliveryTimes rs)
      avg_processing_time := meanQ (utilsProcessingTimes rs)
      avg_shipping_time := meanQ (utilsShippingTimes rs) }

/-- A delivered order whose delivery took 40 days: accepted
2024-01-01 00:00, delivered 2024-02-10 00:00. -/
def recLate : OrderRecord :=
  { recDefault with
      status := "Доставлен"
      acceptedAt := some ⟨2024, 1, 1, 0, 0⟩
      deliveredAt := some ⟨2024, 2, 10, 0, 0⟩
      amount := 1000 }

/-- C2, counterexample: the claim asserts the `[0, 30]`-day window in
BOTH analyzer variants, but `OrderAnalyzer.calculate_delivery_metrics`
(utils.py:128-157) applies no window filter: on a single delivered order
with a 40-day delivery time, the 40-day value is retained in the cohort
whose mean is reported (avg_delivery_time = 40 > 30). -/
theorem utils_delivery_window_counterexample :
    (40 : ℚ) ∈ utilsDeliveryTimes [recLate] ∧ ¬ ((40 : ℚ) ≤ 30) ∧
      (calculate_delivery_metrics [recLate]).avg_delivery_time = 40 := by
  decide

/-- C2, amended: in the enhanced analyzer
(`EnhancedOrderAnalyzer.analyze_delivery_performance`), every delivery
time retained in the cohort over which the mean, median, standard
deviation and on-time rate are computed satisfies
`0 ≤ delivery_time_days ≤ 30`.  (The basic variant applies no such
window; see the counterexample.) -/
theorem enhanced_delivery_window_invariant :
    ∀ (rs : List OrderRecord) (t : ℤ), t ∈ retainedDeliveryTimes rs →
      0 ≤ t ∧ t ≤ 30 := by
  intro rs t ht
  unfold retainedDeliveryTimes at ht
  rw [List.mem_filter] at ht
  obtain ⟨ht1, ht30⟩ := ht
  rw [List.mem_filter] at ht1
  obtain ⟨_, ht0⟩ := ht1
  exact ⟨by simpa using ht0, by simpa using ht30⟩

/-- C2, witness: the amended invariant applied to the concrete scenario-A
record (3-day delivery), with the membership hypothesis discharged by
evaluation. -/
theorem enhanced_delivery_window_invariant_witness :
    0 ≤ (3 : ℤ) ∧ (3 : ℤ) ≤ 30 :=
  enhanced_delivery_window_invariant [recA1] 3 (by decide)

/-- Result of `EnhancedOrderAnalyzer.analyze_discounts`
(enhanced_analyzer.py:93-119).  The two max fields are `Option` because
the empty-cohort early return of the source (lines 99-105) omits the
`max_discount_amount` and `max_discount_percent` keys that the nonempty
branch emits; `none` models an absent key. -/
structure DiscountAnalysis where
  orders_with_discount : ℕ
  discount_percentage : ℚ
  avg_discount_amount : ℚ
  avg_discount_percent : ℚ
  total_savings : ℚ
  max_discount_amount : Option ℚ
  max_discount_percent : Option ℚ
deriving DecidableEq

/-- Model of `EnhancedOrderAnalyzer.analyze_discounts` (enhanced_analyzer.py:93-119).
Cohort: records with `Скидка руб > 0`. -/
def analyze_discounts (rs : List OrderRecord) : DiscountAnalysis :=
  let discounted_orders := rs.filter (fun r => decide (0 < r.discountAmount))
  if discounted_orders.length = 0 then
    { orders_with_discount := 0, discount_percentage := 0
      avg_discount_amount := 0, avg_discount_percent := 0
      total_savings := 0, max_discount_amount := none, max_discount_percent := none }
  else
    { orders_with_discount := discounted_orders.length
      discount_percentage := (discounted_orders.length : ℚ) / (rs.length : ℚ) * 100
      avg_discount_amount := meanQ (discounted_orders.map (fun r => r.discountAmount))
      avg_discount_percent := meanQ (discounted_orders.map (fun r => r.discountPercent))
      total_savings := (discounted_orders.map (fun r => r.discountAmount)).sum
      max_discount_amount := (discounted_orders.map (fun r => r.discountAmount)).max?
      max_discount_percent := (discounted_orders.map (fun r => r.discountPercent)).max? }

/-- A record with no discount (`discount_amount = 0`). -/
def recNoDiscount : OrderRecord :=
  { recDefault with status := "Доставлен", amount := 700 }

/-- C5: on a record set in which no record has `discount_amount > 0`, the
empty-cohort branch of `analyze_discounts` is taken.  The five fields it
emits are zero and no exception is raised, but — contrary to the claim —
the `max_discount_amount` and `max_discount_percent` keys are absent
(`none`), not present with value zero.  (The in-repo caller
`generate_enhanced_excel_report`, enhanced_analyzer.py:681-682, reads both
keys unconditionally and would raise `KeyError` on such data, so the
omission contradicts the consumer shipped with the code.) -/
theorem discount_analysis_empty_cohort_fields :
    analyze_discounts [recNoDiscount] =
      { orders_with_discount := 0, discount_percentage := 0
        avg_discount_amount := 0, avg_discount_percent := 0
        total_savings := 0, max_discount_amount := none
        max_discount_percent := none } ∧
      (analyze_discounts [recNoDiscount]).max_discount_amount = none ∧
      (analyze_discounts [recNoDiscount]).max_discount_percent = none := by
  decide

/-- One aggregated row of `EnhancedOrderAnalyzer.analyze_product_by_sku`
(enhanced_analyzer.py:167-217): the per-SKU grouped statistics after
`.round(2)` and the two derived columns, in descending revenue order.
(`avg_weight` is carried by the source but read by no verified claim and
is omitted.) -/
structure SkuStat where
  sku : String
  total_quantity : ℚ
  total_revenue : ℚ
  avg_price : ℚ
  total_discount : ℚ
  product_name : String
  discount_rate : ℚ
  revenue_per_unit : ℚ
deriving DecidableEq

/-- Model of `EnhancedOrderAnalyzer.analyze_product_by_sku`
(enhanced_analyzer.py:167-217): group the delivered cohort by `Артикул`,
aggregate (sum of quantity, sum and mean of `Сумма отправления`, sum of
discount, first product name), round to 2 decimals, add
`discount_rate` and `revenue_per_unit`, sort by revenue descending.
The `Артикул` column is present in the modelled extended schema. -/
def analyze_product_by_sku (rs : List OrderRecord) : List SkuStat :=
  let delivered_df := rs.filter (fun r => r.status == "Доставлен")
  if delivered_df.length = 0 then []
  else
    let groups := groupByKey (fun r => r.sku) delivered_df
    let sku_stats := groups.map (fun g =>
      let rows := g.2
      let tq := roundTo 2 (rows.map (fun r => r.quantity)).sum
      let trv := roundTo 2 (rows.map (fun r => r.amount)).sum
      let td := roundTo 2 (rows.map (fun r => r.discountAmount)).sum
      { sku := g.1
        total_quantity := tq
        total_revenue := trv
        avg_price := roundTo 2 (meanQ (rows.map (fun r => r.amount)))
        total_discount := td
        product_name := ((rows.head?).map (fun r => r.productName)).getD ""
        discount_rate := roundTo 2 (td / (trv + td) * 100)
        revenue_per_unit := roundTo 2 (trv / tq) })
    sortBy (fun a b => decide (b.total_revenue ≤ a.total_revenue)) sku_stats

/-- ABC category label. -/
inductive ABC
  | A
  | B
  | C
deriving DecidableEq

/-- Model of `classify_abc` (enhanced_analyzer.py:242-248): cumulative share ≤ 80
is A, ≤ 95 is B, otherwise C. -/
def classify_abc (cumulative_share : ℚ) : ABC :=
  if cumulative_share ≤ 80 then ABC.A
  else if cumulative_share ≤ 95 then ABC.B
  else ABC.C

/-- Running prefix sums starting from `acc` (`Series.cumsum`). -/
def cumsumFrom (acc : ℚ) : List ℚ → List ℚ
  | [] => []
  | x :: xs => (acc + x) :: cumsumFrom (acc + x) xs

/-- Model of `Series.cumsum()`. -/
def cumsum (xs : List ℚ) : List ℚ := cumsumFrom 0 xs

/-- Model of `revenue_share` column (enhanced_analyzer.py:238): each revenue as a
rounded percentage of the total, in the (already revenue-sorted) SKU
order. -/
def revenue_shares (revs : List ℚ) : List ℚ :=
  revs.map (fun r => roundTo 2 (r / revs.sum * 100))

/-- Model of `cumulative_share` column (enhanced_analyzer.py:239): cumulative sum
of the rounded shares, rounded again. -/
def cumulative_shares (revs : List ℚ) : List ℚ :=
  (cumsum (revenue_shares revs)).map (roundTo 2)

/-- Model of `abc_category` column (enhanced_analyzer.py:250). -/
def abc_categories (revs : List ℚ) : List ABC :=
  (cumulative_shares revs).map classify_abc

/-- Result of `EnhancedOrderAnalyzer.get_sku_abc_analysis`
(enhanced_analyzer.py:219-277). -/
structure ABCAnalysis where
  category_A : List String
  category_B : List String
  category_C : List String
  revenue_share_A : ℚ
  revenue_share_B : ℚ
  revenue_share_C : ℚ
  cumulative_A : ℚ
  cumulative_B : ℚ
  cumulative_C : ℚ
deriving DecidableEq

/-- Model of `EnhancedOrderAnalyzer.get_sku_abc_analysis`
(enhanced_analyzer.py:219-277).  Empty SKU aggregate: fixed structure
with empty category lists, zero shares and `cumulative_C = 100`
(lines 224-234).  Otherwise: shares, cumulative shares and categories
over the revenue-sorted SKU list; `cumulative_A = revenue_share_A`,
`cumulative_B = revenue_share_A + revenue_share_B`, and `cumulative_C`
is the constant 100.0 (line 265). -/
def get_sku_abc_analysis (rs : List OrderRecord) : ABCAnalysis :=
  let sku_stats := analyze_product_by_sku rs
  if sku_stats.length = 0 then
    { category_A := [], category_B := [], category_C := []
      revenue_share_A := 0, revenue_share_B := 0, revenue_share_C := 0
      cumulative_A := 0, cumulative_B := 0, cumulative_C := 100 }
  else
    let revs := sku_stats.map (fun s => s.total_revenue)
    let shares := revenue_shares revs
    let cats := abc_categories revs
    let tagged := (sku_stats.map (fun s => s.sku)).zip (shares.zip cats)
    let catList := fun (c : ABC) =>
      (tagged.filter (fun p => decide (p.2.2 = c))).map (fun p => p.1)
    let shareSum := fun (c : ABC) =>
      ((tagged.filter (fun p => decide (p.2.2 = c))).map (fun p => p.2.1)).sum
    let sA := shareSum ABC.A
    let sB := shareSum ABC.B
    let sC := shareSum ABC.C
    { category_A := catList ABC.A, category_B := catList ABC.B, category_C := catList ABC.C
      revenue_share_A := sA, revenue_share_B := sB, revenue_share_C := sC
      cumulative_A := sA, cumulative_B := sA + sB, cumulative_C := 100 }

/-- A pair drawn from a list zipped with its image under `f` relates its
components by `f`. -/
theorem mem_zip_map {α β : Type} (f : α → β) :
    ∀ (l : List α) (p : α × β), p ∈ l.zip (l.map f) → p.2 = f p.1 := by
  intro l
  induction l with
  | nil => intro p hp; simp at hp
  | cons x t ih =>
    intro p hp
    rw [List.map_cons, List.zip_cons_cons, List.mem_cons] at hp
    rcases hp with h | h
    · subst h; rfl
    · exact ih p h

/-- The three-way characterization of `classify_abc`. -/
theorem classify_abc_characterization (c : ℚ) :
    (classify_abc c = ABC.A ↔ c ≤ 80) ∧
    (classify_abc c = ABC.B ↔ 80 < c ∧ c ≤ 95) ∧
    (classify_abc c = ABC.C ↔ 95 < c) := by
  unfold classify_abc
  split_ifs with h1 h2
  · refine ⟨by simp [h1], by simp; intro h; linarith, by simp; linarith⟩
  · refine ⟨by simp [h1], by simp [lt_of_not_le h1, h2], by simp; linarith⟩
  · refine ⟨by simp; linarith [lt_of_not_le h2], by simp; intro h; exact lt_of_not_le h2, by
      simp [lt_of_not_le h2]⟩

/-- Scenario D, SKU 1: delivered, revenue 100. -/
def recD1 : OrderRecord :=
  { recDefault with status := "Доставлен", sku := "SKU1", productName := "P1", amount := 100 }

/-- Scenario D, SKU 2: delivered, revenue 50. -/
def recD2 : OrderRecord :=
  { recDefault with status := "Доставлен", sku := "SKU2", productName := "P2", amount := 50 }

/-- Scenario D, SKU 3: delivered, revenue 10. -/
def recD3 : OrderRecord :=
  { recDefault with status := "Доставлен", sku := "SKU3", productName := "P3", amount := 10 }

/-- C3: for SKU revenues [100, 50, 10] the ABC classification computes
revenue shares [62.5, 31.25, 6.25], cumulative shares [62.5, 93.75, 100]
and categories [A, B, C] — both on the share columns directly and
through the full `get_sku_abc_analysis` pipeline on three delivered
one-record SKUs; and in general, a SKU is classified A exactly when its
cumulative revenue share (in descending-revenue order) is ≤ 80, B
exactly when it is in (80, 95], and C exactly when it exceeds 95. -/
theorem abc_classification_scenario_D :
    (revenue_shares [100, 50, 10] = [62.5, 31.25, 6.25] ∧
     cumulative_shares [100, 50, 10] = [62.5, 93.75, 100] ∧
     abc_categories [100, 50, 10] = [ABC.A, ABC.B, ABC.C] ∧
     get_sku_abc_analysis [recD1, recD2, recD3] =
       { category_A := ["SKU1"], category_B := ["SKU2"], category_C := ["SKU3"]
         revenue_share_A := 62.5, revenue_share_B := 31.25, revenue_share_C := 6.25
         cumulative_A := 62.5, cumulative_B := 93.75, cumulative_C := 100 }) ∧
    ∀ (revs : List ℚ) (p : ℚ × ABC),
      p ∈ (cumulative_shares revs).zip (abc_categories revs) →
        (p.2 = ABC.A ↔ p.1 ≤ 80) ∧ (p.2 = ABC.B ↔ 80 < p.1 ∧ p.1 ≤ 95) ∧
        (p.2 = ABC.C ↔ 95 < p.1) := by
  constructor
  · decide
  · intro revs p hp
    have h2 := mem_zip_map classify_abc (cumulative_shares revs) p hp
    rw [h2]
    exact classify_abc_characterization p.1

/-- C3, witness: the general characterization applied at a concrete pair
of the scenario-D cumulative-share column. -/
theorem abc_classification_scenario_D_witness :
    ABC.B = ABC.B ↔ 80 < (93.75 : ℚ) ∧ (93.75 : ℚ) ≤ 95 :=
  ((abc_classification_scenario_D.2 [100, 50, 10] (93.75, ABC.B) (by decide)).2).1

/-- A single cancelled record: the delivered cohort, and hence the SKU
aggregate, is empty. -/
def recCancelled : OrderRecord :=
  { recDefault with status := "Отменён", sku := "SKU9", amount := 500 }

/-- C10: on an input whose SKU aggregate is empty (here: one cancelled
record, so no delivered orders), `get_sku_abc_analysis` returns the fixed
structure with all three category lists empty and all revenue shares 0,
yet `cumulative_C = 100` (with `cumulative_A = cumulative_B = 0`) — so a
nonzero `cumulative_C` alone is no evidence that any revenue was
classified. -/
theorem abc_empty_aggregate_structure :
    get_sku_abc_analysis [recCancelled] =
      { category_A := [], category_B := [], category_C := []
        revenue_share_A := 0, revenue_share_B := 0, revenue_share_C := 0
        cumulative_A := 0, cumulative_B := 0, cumulative_C := 100 } ∧
    (get_sku_abc_analysis [recCancelled]).category_A = [] ∧
    (get_sku_abc_analysis [recCancelled]).category_B = [] ∧
    (get_sku_abc_analysis [recCancelled]).category_C = [] ∧
    (get_sku_abc_analysis [recCancelled]).cumulative_C = 100 := by
  decide

/-- Last element of a list with a default (`cumsum[-1]`; the source only
evaluates it on nonempty arrays). -/
def lastD (d : ℚ) : List ℚ → ℚ
  | [] => d
  | [x] => x
  | _ :: x :: t => lastD d (x :: t)

/-- The Gini coefficient of enhanced_analyzer.py:327-332:
ascending sort, cumulative sums, and
`(n + 1 - 2 * sum(cumsum) / cumsum[-1]) / n` when `cumsum[-1] > 0`,
else 0. -/
def gini_coefficient (revenues : List ℚ) : ℚ :=
  let revenues_sorted := List.insertionSort (· ≤ ·) revenues
  let n : ℚ := revenues_sorted.length
  let cs := cumsum revenues_sorted
  let total := lastD 0 cs
  if 0 < total then (n + 1 - 2 * cs.sum / total) / n else 0

/-- Model of `nlargest(1, total_quantity)` (enhanced_analyzer.py:312-313): the
first row attaining the maximal quantity. -/
def maxByQuantity (l : List SkuStat) : Option SkuStat :=
  l.foldl (fun acc s =>
    match acc with
    | none => some s
    | some m => if m.total_quantity < s.total_quantity then some s else some m) none

/-- Result of `EnhancedOrderAnalyzer.get_sku_performance_metrics`
(enhanced_analyzer.py:279-359). -/
structure SkuPerformance where
  total_skus : ℕ
  total_unique_skus : ℕ
  avg_revenue_per_sku : ℚ
  median_revenue_per_sku : ℚ
  avg_quantity_per_sku : ℚ
  top_sku_by_revenue : String
  top_sku_revenue : ℚ
  top_sku_by_quantity : String
  top_sku_quantity : ℚ
  a_category_skus : ℕ
  b_category_skus : ℕ
  c_category_skus : ℕ
  a_category_revenue_share : ℚ
  top_10_percent_revenue_share : ℚ
  gini_coefficient : ℚ
  high_revenue_skus : ℕ
  high_revenue_share : ℚ
deriving DecidableEq

/-- Model of `EnhancedOrderAnalyzer.get_sku_performance_metrics`
(enhanced_analyzer.py:279-359).  `int(total_skus * 0.1)` truncates a
nonnegative float and is modelled as natural division by 10. -/
def get_sku_performance_metrics (rs : List OrderRecord) : SkuPerformance :=
  let sku_stats := analyze_product_by_sku rs
  if sku_stats.length = 0 then
    { total_skus := 0, total_unique_skus := 0, avg_revenue_per_sku := 0
      median_revenue_per_sku := 0, avg_quantity_per_sku := 0
      top_sku_by_revenue := "N/A", top_sku_revenue := 0
      top_sku_by_quantity := "N/A", top_sku_quantity := 0
      a_category_skus := 0, b_category_skus := 0, c_category_skus := 0
      a_category_revenue_share := 0, top_10_percent_revenue_share := 0
      gini_coefficient := 0, high_revenue_skus := 0, high_revenue_share := 0 }
  else
    let total_skus := sku_stats.length
    let total_revenue := (sku_stats.map (fun s => s.total_revenue)).sum
    let total_quantity := (sku_stats.map (fun s => s.total_quantity)).sum
    let abc := get_sku_abc_analysis rs
    let top_10_percent_count := max 1 (total_skus / 10)
    let top_10_percent_revenue :=
      ((sku_stats.take top_10_percent_count).map (fun s => s.total_revenue)).sum
    let high := sku_stats.filter (fun s => decide (10000 < s.total_revenue))
    let high_revenue_total := (high.map (fun s => s.total_revenue)).sum
    { total_skus := total_skus
      total_unique_skus := total_skus
      avg_revenue_per_sku :=
        if 0 < total_skus then roundTo 2 (total_revenue / (total_skus : ℚ)) else 0
      median_revenue_per_sku := medianQ (sku_stats.map (fun s => s.total_revenue))
      avg_quantity_per_sku :=
        if 0 < total_skus then roundTo 2 (total_quantity / (total_skus : ℚ)) else 0
      top_sku_by_revenue := ((sku_stats.head?).map (fun s => s.sku)).getD "N/A"
      top_sku_revenue := ((sku_stats.head?).map (fun s => s.total_revenue)).getD 0
      top_sku_by_quantity := ((maxByQuantity sku_stats).map (fun s => s.sku)).getD "N/A"
      top_sku_quantity := ((maxByQuantity sku_stats).map (fun s => s.total_quantity)).getD 0
      a_category_skus := abc.category_A.length
      b_category_skus := abc.category_B.length
      c_category_skus := abc.category_C.length
      a_category_revenue_share := abc.revenue_share_A
      top_10_percent_revenue_share :=
        roundTo 1 (if 0 < total_revenue then top_10_percent_revenue / total_revenue * 100 else 0)
      gini_coefficient := roundTo 3 (gini_coefficient (sku_stats.map (fun s => s.total_revenue)))
      high_revenue_skus := high.length
      high_revenue_share :=
        roundTo 1 (if 0 < total_revenue then high_revenue_total / total_revenue * 100 else 0) }

/-- Peeling one cons step off `lastD`. -/
theorem lastD_cons_cons (d a b : ℚ) (t : List ℚ) :
    lastD d (a :: b :: t) = lastD d (b :: t) := rfl

/-- The last partial sum of `cumsumFrom acc xs` is `acc` plus the sum of
`xs`, for nonempty `xs` (with any default). -/
theorem lastD_cumsumFrom :
    ∀ (xs : List ℚ) (d acc : ℚ), xs ≠ [] →
      lastD d (cumsumFrom acc xs) = acc + xs.sum := by
  intro xs
  induction xs with
  | nil => intro d acc h; simp at h
  | cons x t ih =>
    intro d acc _
    cases t with
    | nil => simp [cumsumFrom, lastD]
    | cons y t2 =>
      have hstep : cumsumFrom acc (x :: y :: t2) =
          (acc + x) :: cumsumFrom (acc + x) (y :: t2) := rfl
      have hcons : cumsumFrom (acc + x) (y :: t2) =
          (acc + x + y) :: cumsumFrom (acc + x + y) t2 := rfl
      rw [hstep, hcons, lastD_cons_cons, ← hcons, ih d (acc + x) (by simp)]
      simp [List.sum_cons]
      ring

/-- With every revenue zero, `cumsum[-1]` is zero, the guard fails, and
the Gini coefficient is the fallback 0. -/
theorem gini_zero_of_all_zero (l : List ℚ) (h : ∀ x ∈ l, x = 0) :
    gini_coefficient l = 0 := by
  have hperm := List.perm_insertionSort (fun a b => a ≤ b) l
  have hsz : (List.insertionSort (fun a b => a ≤ b) l).sum = 0 := by
    rw [hperm.sum_eq]
    exact List.sum_eq_zero h
  by_cases hnil : List.insertionSort (fun a b => a ≤ b) l = []
  · simp [gini_coefficient, hnil, cumsum, cumsumFrom, lastD]
  · have htot : lastD 0 (cumsum (List.insertionSort (fun a b => a ≤ b) l)) = 0 := by
      rw [cumsum, lastD_cumsumFrom _ 0 0 hnil, hsz, add_zero]
    simp [gini_coefficient, htot]

/-- Lemma: `roundTo` fixes zero. -/
theorem roundTo_zero (p : ℕ) : roundTo p 0 = 0 := by
  have h1 : roundHalfEvenInt 0 = 0 := by decide
  unfold roundTo
  rw [zero_mul, h1]
  simp

/-- C9: if every SKU in the aggregate has total revenue 0 (so
`cumsum[-1]` is 0), `get_sku_performance_metrics` reports
`gini_coefficient = 0` through the guard rather than evaluating the
division by the zero total, and the computation is total. -/
theorem sku_gini_zero_total_revenue :
    ∀ rs : List OrderRecord,
      (∀ s ∈ analyze_product_by_sku rs, s.total_revenue = 0) →
      (get_sku_performance_metrics rs).gini_coefficient = 0 := by
  intro rs h
  unfold get_sku_performance_metrics
  by_cases hlen : (analyze_product_by_sku rs).length = 0
  · simp [hlen]
  · have hz : ∀ x ∈ (analyze_product_by_sku rs).map (fun s => s.total_revenue), x = 0 := by
      intro x hx
      obtain ⟨s, hs, hxe⟩ := List.mem_map.1 hx
      rw [← hxe]
      exact h s hs
    simp only [if_neg hlen]
    rw [gini_zero_of_all_zero _ hz, roundTo_zero]

/-- A single delivered record with zero revenue. -/
def recZeroRev : OrderRecord :=
  { recDefault with status := "Доставлен", sku := "S0", amount := 0 }

/-- C9, witness: one delivered zero-revenue SKU; the all-zero-revenue
hypothesis is discharged by evaluation. -/
theorem sku_gini_zero_total_revenue_witness :
    (get_sku_performance_metrics [recZeroRev]).gini_coefficient = 0 :=
  sku_gini_zero_total_revenue [recZeroRev] (by decide)

/-- Result of `EnhancedOrderAnalyzer.analyze_weight_logistics`
(enhanced_analyzer.py:407-449). -/
structure WeightLogistics where
  total_weight_kg : ℚ
  avg_weight_per_order : ℚ
  heavy_orders_count : ℕ
  light_orders_count : ℕ
  heavy_orders_percentage : ℚ
  light_orders_percentage : ℚ
  weight_data_available : Bool
deriving DecidableEq

/-- Model of `EnhancedOrderAnalyzer.analyze_weight_logistics`
(enhanced_analyzer.py:407-449): statistics over the records with
non-null weight; heavy is `> 2.0` kg, light is `≤ 0.5` kg, percentages
relative to the non-null-weight subset.  (The missing-column
branch returns the same unavailable structure as the no-data branch;
the modelled schema always carries the column.) -/
def analyze_weight_logistics (rs : List OrderRecord) : WeightLogistics :=
  let weights := rs.filterMap (fun r => r.weightKg)
  if weights.length = 0 then
    { total_weight_kg := 0, avg_weight_per_order := 0
      heavy_orders_count := 0, light_orders_count := 0
      heavy_orders_percentage := 0, light_orders_percentage := 0
      weight_data_available := false }
  else
    let heavy := (weights.filter (fun w => decide (2 < w))).length
    let light := (weights.filter (fun w => decide (w ≤ 1/2))).length
    { total_weight_kg := weights.sum
      avg_weight_per_order := meanQ weights
      heavy_orders_count := heavy
      light_orders_count := light
      heavy_orders_percentage := (heavy : ℚ) / (weights.length : ℚ) * 100
      light_orders_percentage := (light : ℚ) / (weights.length : ℚ) * 100
      weight_data_available := true }

/-- One row of `EnhancedOrderAnalyzer.analyze_product_categories`
(enhanced_analyzer.py:121-165): per-product aggregates, revenue-sorted.
`avg_weight` is the mean of the non-null weights, `none` when there are
none (pandas NA). -/
structure ProductStat where
  product_name : String
  total_quantity : ℚ
  total_revenue : ℚ
  avg_price : ℚ
  total_discount : ℚ
  avg_weight : Option ℚ
deriving DecidableEq

/-- Model of `EnhancedOrderAnalyzer.analyze_product_categories`
(enhanced_analyzer.py:121-165): group the delivered cohort by product
name, aggregate, round to 2 decimals, sort by revenue descending. -/
def analyze_product_categories (rs : List OrderRecord) : List ProductStat :=
  let delivered_df := rs.filter (fun r => r.status == "Доставлен")
  if delivered_df.length = 0 then []
  else
    let groups := groupByKey (fun r => r.productName) delivered_df
    let product_stats := groups.map (fun g =>
      let rows := g.2
      let ws := rows.filterMap (fun r => r.weightKg)
      { product_name := g.1
        total_quantity := roundTo 2 (rows.map (fun r => r.quantity)).sum
        total_revenue := roundTo 2 (rows.map (fun r => r.amount)).sum
        avg_price := roundTo 2 (meanQ (rows.map (fun r => r.amount)))
        total_discount := roundTo 2 (rows.map (fun r => r.discountAmount)).sum
        avg_weight := if ws.length = 0 then none else some (roundTo 2 (meanQ ws)) })
    sortBy (fun a b => decide (b.total_revenue ≤ a.total_revenue)) product_stats

/-- One row of `EnhancedOrderAnalyzer.get_time_series_analysis`
(enhanced_analyzer.py:474-497): per-day aggregates of the delivered
cohort, keyed by the epoch day of the acceptance date. -/
structure DailyStat where
  date : ℤ
  orders_count : ℕ
  daily_revenue : ℚ
  daily_discount : ℚ
  items_sold : ℚ
deriving DecidableEq

/-- Model of `EnhancedOrderAnalyzer.get_time_series_analysis`
(enhanced_analyzer.py:474-497): group the delivered cohort by the
calendar day of `Принят в обработку` (null acceptance dates drop out of
the grouping), aggregate, round to 2 decimals; day keys ascending. -/
def get_time_series_analysis (rs : List OrderRecord) : List DailyStat :=
  let delivered_df := rs.filter (fun r => r.status == "Доставлен")
  if delivered_df.length = 0 then []
  else
    let keyed := delivered_df.filterMap (fun r =>
      r.acceptedAt.map (fun t => (daysFromCivil t.year t.month t.day, r)))
    let groups := groupByKey (fun p => p.1) keyed
    let rows := groups.map (fun g =>
      let rows2 := g.2.map (fun p => p.2)
      { date := g.1
        orders_count := rows2.length
        daily_revenue := roundTo 2 (rows2.map (fun r => r.amount)).sum
        daily_discount := roundTo 2 (rows2.map (fun r => r.discountAmount)).sum
        items_sold := roundTo 2 (rows2.map (fun r => r.quantity)).sum })
    sortBy (fun a b => decide (a.date ≤ b.date)) rows

/-- One row of the grouped monthly table `monthly_stats`
(enhanced_analyzer.py:514-542), after `.round(2)`: order count, revenue
sum and mean, discount sum, quantity sum.  (The optional weight columns
are read by no verified claim and are omitted.) -/
structure MonthAgg where
  orders_count : ℕ
  total_revenue : ℚ
  avg_order_value : ℚ
  total_discount : ℚ
  total_quantity : ℚ
deriving DecidableEq

/-- Model of `discount_rate` column (enhanced_analyzer.py:546):
`total_discount / total_revenue * 100`, `fillna(0)`.  In `ℚ`, division
by zero yields 0, matching the `0/0 → NaN → fillna(0)` case; the
`d > 0, revenue = 0 → inf` case is not representable and is exercised by
no verified claim. -/
def monthly_discount_rate (m : MonthAgg) : ℚ :=
  m.total_discount / m.total_revenue * 100

/-- Model of `Series.min()` over a nonempty column (0 for the empty list, which
the source cannot produce here: the monthly table is nonempty in the
branch that computes it). -/
def listMin (l : List ℚ) : ℚ :=
  match l with
  | [] => 0
  | x :: xs => xs.foldl min x

/-- Model of `Series.max()`, as `listMin`. -/
def listMax (l : List ℚ) : ℚ :=
  match l with
  | [] => 0
  | x :: xs => xs.foldl max x

/-- The epsilon `1e-10` of enhanced_analyzer.py:550-553. -/
def epsRating : ℚ := 1 / 10000000000

/-- Model of `(x - min) / (max - min + 1e-10)`, the min-max normalization of
enhanced_analyzer.py:550-553 applied to one column value `x`. -/
def minmaxNorm (l : List ℚ) (x : ℚ) : ℚ :=
  (x - listMin l) / (listMax l - listMin l + epsRating)

/-- The `success_rating` of one monthly row (enhanced_analyzer.py:549-561)
given the whole monthly table `stats`: `revenue_norm * 40 +
volume_norm * 30 + discount_eff_norm * 20 + turnover_norm * 10`, where
revenue (`total_revenue`), volume (`orders_count * avg_order_value`) and
turnover (`avg_items_per_order * orders_count`) are min-max normalized
over the table, while `discount_eff_norm = (100 - discount_rate) / 100`
(line 552) is a fixed affine transform, not min-max normalized. -/
def success_rating (stats : List MonthAgg) (m : MonthAgg) : ℚ :=
  let revs := stats.map (fun s => s.total_revenue)
  let vols := stats.map (fun s => (s.orders_count : ℚ) * s.avg_order_value)
  let turns := stats.map (fun s =>
    s.total_quantity / (s.orders_count : ℚ) * (s.orders_count : ℚ))
  minmaxNorm revs m.total_revenue * 40 +
    minmaxNorm vols ((m.orders_count : ℚ) * m.avg_order_value) * 30 +
    (100 - monthly_discount_rate m) / 100 * 20 +
    minmaxNorm turns (m.total_quantity / (m.orders_count : ℚ) * (m.orders_count : ℚ)) * 10

/-- The `success_rating` column over the monthly table. -/
def successRatings (stats : List MonthAgg) : List ℚ :=
  stats.map (success_rating stats)

/-- Modelled from the spec sentence behind claim C4 (not from the
source): the success rating with ALL FOUR signals min-max normalized as
`(x - min) / (max - min + 1e-10)` — including the inverse discount rate,
taken as the signal `100 - discount_rate` (the inverse form used by the source;
the discrepancy with the source does not depend on this reading). -/
def spec_success_rating (stats : List MonthAgg) (m : MonthAgg) : ℚ :=
  let revs := stats.map (fun s => s.total_revenue)
  let vols := stats.map (fun s => (s.orders_count : ℚ) * s.avg_order_value)
  let discs := stats.map (fun s => 100 - monthly_discount_rate s)
  let turns := stats.map (fun s =>
    s.total_quantity / (s.orders_count : ℚ) * (s.orders_count : ℚ))
  minmaxNorm revs m.total_revenue * 40 +
    minmaxNorm vols ((m.orders_count : ℚ) * m.avg_order_value) * 30 +
    minmaxNorm discs (100 - monthly_discount_rate m) * 20 +
    minmaxNorm turns (m.total_quantity / (m.orders_count : ℚ) * (m.orders_count : ℚ)) * 10

/-- The spec-worded rating column. -/
def specSuccessRatings (stats : List MonthAgg) : List ℚ :=
  stats.map (spec_success_rating stats)

/-- The grouped monthly table of `EnhancedOrderAnalyzer.get_monthly_analysis`
(enhanced_analyzer.py:510-527): the delivered cohort keyed by the
`(year, month)` period of `Принят в обработку` (null dates drop out),
aggregated and rounded to 2 decimals. -/
def monthlyGroups (rs : List OrderRecord) : List ((ℤ × ℤ) × MonthAgg) :=
  let delivered_df := rs.filter (fun r => r.status == "Доставлен")
  let keyed := delivered_df.filterMap (fun r =>
    r.acceptedAt.map (fun t => ((t.year, t.month), r)))
  let groups := groupByKey (fun p => p.1) keyed
  groups.map (fun g =>
    let rows := g.2.map (fun p => p.2)
    (g.1,
      { orders_count := rows.length
        total_revenue := roundTo 2 (rows.map (fun r => r.amount)).sum
        avg_order_value := roundTo 2 (meanQ (rows.map (fun r => r.amount)))
        total_discount := roundTo 2 (rows.map (fun r => r.discountAmount)).sum
        total_quantity := roundTo 2 (rows.map (fun r => r.quantity)).sum }))

/-- One output row of `EnhancedOrderAnalyzer.get_monthly_analysis`
(enhanced_analyzer.py:499-570): the month key, its aggregates, the three
derived per-row columns (lines 545-547) and the success rating. -/
structure MonthlyRow where
  month : ℤ × ℤ
  agg : MonthAgg
  revenue_per_order : ℚ
  discount_rate : ℚ
  avg_items_per_order : ℚ
  success_rating : ℚ
deriving DecidableEq

/-- Model of `EnhancedOrderAnalyzer.get_monthly_analysis`
(enhanced_analyzer.py:499-570): empty delivered cohort yields the empty
table; otherwise the grouped monthly table with derived columns and
success ratings, sorted chronologically (line 568). -/
def get_monthly_analysis (rs : List OrderRecord) : List MonthlyRow :=
  let delivered_df := rs.filter (fun r => r.status == "Доставлен")
  if delivered_df.length = 0 then []
  else
    let aggs := monthlyGroups rs
    let stats := aggs.map (fun p => p.2)
    let rows := aggs.map (fun p =>
      { month := p.1
        agg := p.2
        revenue_per_order := p.2.total_revenue / (p.2.orders_count : ℚ)
        discount_rate := monthly_discount_rate p.2
        avg_items_per_order := p.2.total_quantity / (p.2.orders_count : ℚ)
        success_rating := success_rating stats p.2 })
    sortBy (fun a b =>
      decide (a.month.1 < b.month.1 ∨ (a.month.1 = b.month.1 ∧ a.month.2 ≤ b.month.2))) rows

/-- Membership in `orderedInsertBy`. -/
theorem mem_orderedInsertBy (le : α → α → Bool) (a x : α) :
    ∀ l : List α, (x ∈ orderedInsertBy le a l ↔ x = a ∨ x ∈ l) := by
  intro l
  induction l with
  | nil => simp [orderedInsertBy]
  | cons b t ih =>
    unfold orderedInsertBy
    by_cases h : le a b
    · simp [h]
    · simp [h, ih]
      tauto

/-- Lemma: `sortBy` permutes: membership is unchanged. -/
theorem mem_sortBy (le : α → α → Bool) (x : α) :
    ∀ l : List α, (x ∈ sortBy le l ↔ x ∈ l) := by
  intro l
  induction l with
  | nil => simp [sortBy]
  | cons a t ih => simp [sortBy, mem_orderedInsertBy, ih]

/-- Counterexample month 1: one order, revenue 100, discount 10. -/
def magg1 : MonthAgg :=
  { orders_count := 1, total_revenue := 100, avg_order_value := 100
    total_discount := 10, total_quantity := 1 }

/-- Counterexample month 2: one order, revenue 200, discount 100. -/
def magg2 : MonthAgg :=
  { orders_count := 1, total_revenue := 200, avg_order_value := 200
    total_discount := 100, total_quantity := 1 }

/-- C4, counterexample: on a two-month table with discount rates 10% and
50%, the rating of month 1 in the source is exactly 18 (its discount
efficiency enters as the fixed transform (100-10)/100 = 0.9, weighted by
20), whereas the formula of the claim — with the inverse discount rate also
min-max normalized — gives 800/(40 + 1e-10) ≈ 20 ≠ 18, so the rating
columns differ. -/
theorem success_rating_not_fully_minmax :
    success_rating [magg1, magg2] magg1 = 18 ∧
    spec_success_rating [magg1, magg2] magg1 ≠ 18 ∧
    successRatings [magg1, magg2] ≠ specSuccessRatings [magg1, magg2] := by
  decide

/-- C4, amended: for every monthly-analysis output row, the success
rating is `40·revenue_norm + 30·volume_norm + 20·discount_eff + 10·
turnover_norm`, where revenue, volume (order count × average order
value) and turnover signals are min-max normalized as
`(x - min)/(max - min + 1e-10)` over the months, while the discount
efficiency term is the fixed transform `(100 - discount_rate)/100`, not
min-max normalized. -/
theorem monthly_success_rating_formula :
    ∀ (rs : List OrderRecord) (row : MonthlyRow), row ∈ get_monthly_analysis rs →
      row.success_rating =
        minmaxNorm ((monthlyGroups rs).map (fun p => p.2.total_revenue))
            row.agg.total_revenue * 40 +
        minmaxNorm ((monthlyGroups rs).map (fun p =>
              (p.2.orders_count : ℚ) * p.2.avg_order_value))
            ((row.agg.orders_count : ℚ) * row.agg.avg_order_value) * 30 +
        (100 - monthly_discount_rate row.agg) / 100 * 20 +
        minmaxNorm ((monthlyGroups rs).map (fun p =>
              p.2.total_quantity / (p.2.orders_count : ℚ) * (p.2.orders_count : ℚ)))
            (row.agg.total_quantity / (row.agg.orders_count : ℚ) *
              (row.agg.orders_count : ℚ)) * 10 := by
  intro rs row hrow
  simp only [get_monthly_analysis] at hrow
  by_cases h0 : (rs.filter (fun r => r.status == "Доставлен")).length = 0
  · rw [if_pos h0] at hrow
    simp at hrow
  · rw [if_neg h0, mem_sortBy] at hrow
    obtain ⟨p, hp, hpe⟩ := List.mem_map.1 hrow
    subst hpe
    simp only [success_rating, List.map_map, Function.comp_def]

/-- C4, witness: the amended formula applied to the single-month analysis
of the scenario-A delivered record (rating 20), membership discharged by
evaluation. -/
def monthRow0 : MonthlyRow :=
  { month := (2024, 1)
    agg := { orders_count := 1, total_revenue := 1000, avg_order_value := 1000
             total_discount := 0, total_quantity := 1 }
    revenue_per_order := 1000, discount_rate := 0, avg_items_per_order := 1
    success_rating := 20 }

/-- C4, witness theorem (see `monthRow0`). -/
theorem monthly_success_rating_formula_witness :
    monthRow0.success_rating =
      minmaxNorm ((monthlyGroups [recA1]).map (fun p => p.2.total_revenue))
          monthRow0.agg.total_revenue * 40 +
      minmaxNorm ((monthlyGroups [recA1]).map (fun p =>
            (p.2.orders_count : ℚ) * p.2.avg_order_value))
          ((monthRow0.agg.orders_count : ℚ) * monthRow0.agg.avg_order_value) * 30 +
      (100 - monthly_discount_rate monthRow0.agg) / 100 * 20 +
      minmaxNorm ((monthlyGroups [recA1]).map (fun p =>
            p.2.total_quantity / (p.2.orders_count : ℚ) * (p.2.orders_count : ℚ)))
          (monthRow0.agg.total_quantity / (monthRow0.agg.orders_count : ℚ) *
            (monthRow0.agg.orders_count : ℚ)) * 10 :=
  monthly_success_rating_formula [recA1] monthRow0 (by decide)

/-- C6: every modelled Metrics Engine function, applied to the empty
record sequence, evaluates totally (never raises) to its zero-valued or
empty result.  One divergence from the documented structures: the
empty-cohort result of `analyze_discounts` omits the two documented max
fields (`none` here models the absent dict keys) instead of emitting
them as zero — the same slip recorded for claim C5. -/
theorem metrics_engine_empty_input :
    get_basic_metrics [] =
      { total_orders := 0, delivered_orders := 0, cancelled_orders := 0
        in_delivery := 0, delivery_rate := 0, cancellation_rate := 0
        total_revenue := 0, avg_order_value := 0, total_discount_amount := 0 } ∧
    analyze_discounts [] =
      { orders_with_discount := 0, discount_percentage := 0
        avg_discount_amount := 0, avg_discount_percent := 0
        total_savings := 0, max_discount_amount := none
        max_discount_percent := none } ∧
    analyze_delivery_performance [] =
      { avg_delivery_time := 0, median_delivery_time := 0, delivery_time_std := 0
        on_time_delivery_rate := 0, total_delivered := none } ∧
    calculate_delivery_metrics [] =
      { avg_delivery_time := 0, median_delivery_time := 0
        avg_processing_time := 0, avg_shipping_time := 0 } ∧
    analyze_product_categories [] = [] ∧
    analyze_product_by_sku [] = [] ∧
    get_sku_abc_analysis [] =
      { category_A := [], category_B := [], category_C := []
        revenue_share_A := 0, revenue_share_B := 0, revenue_share_C := 0
        cumulative_A := 0, cumulative_B := 0, cumulative_C := 100 } ∧
    get_sku_performance_metrics [] =
      { total_skus := 0, total_unique_skus := 0, avg_revenue_per_sku := 0
        median_revenue_per_sku := 0, avg_quantity_per_sku := 0
        top_sku_by_revenue := "N/A", top_sku_revenue := 0
        top_sku_by_quantity := "N/A", top_sku_quantity := 0
        a_category_skus := 0, b_category_skus := 0, c_category_skus := 0
        a_category_revenue_share := 0, top_10_percent_revenue_share := 0
        gini_coefficient := 0, high_revenue_skus := 0, high_revenue_share := 0 } ∧
    analyze_weight_logistics [] =
      { total_weight_kg := 0, avg_weight_per_order := 0
        heavy_orders_count := 0, light_orders_count := 0
        heavy_orders_percentage := 0, light_orders_percentage := 0
        weight_data_available := false } ∧
    get_monthly_analysis [] = [] ∧
    get_time_series_analysis [] = [] := by
  decide

/-- A row whose acceptance timestamp is null after parsing. -/
def recNullAccepted : OrderRecord :=
  { recDefault with status := "Доставлен", acceptedAt := none, amount := 250 }

/-- C8, counterexample: `EnhancedOrderAnalyzer._prepare_data` performs no
`dropna`, so a record whose acceptance timestamp is null after parsing
remains in the normalized record set of the enhanced variant — against
the claim that both variants exclude such rows. -/
theorem enhanced_prepare_retains_null_accepted :
    recNullAccepted ∈ enhanced_prepare_data [recNullAccepted] ∧
    recNullAccepted.acceptedAt = none := by
  decide

/-- C8, amended: in the basic variant (`OrderAnalyzer._prepare_data`,
utils.py:124), every record of the normalized output has a non-null
acceptance timestamp; rows with a null one are dropped.  The enhanced
variant retains such rows (see the counterexample). -/
theorem utils_prepare_null_accepted_dropped :
    ∀ (rs : List OrderRecord) (r : OrderRecord), r ∈ utils_prepare_data rs →
      r.acceptedAt.isSome = true := by
  intro rs r hr
  unfold utils_prepare_data at hr
  rw [List.mem_filter] at hr
  exact hr.2

/-- C8, witness: the amended statement applied to a concrete mixed input,
membership discharged by evaluation. -/
theorem utils_prepare_null_accepted_dropped_witness :
    recA1.acceptedAt.isSome = true :=
  utils_prepare_null_accepted_dropped [recNullAccepted, recA1] recA1 (by decide)

/-- Shifting the accumulator of `cumsumFrom` shifts every partial sum. -/
theorem cumsumFrom_add (a : ℚ) :
    ∀ (xs : List ℚ) (b : ℚ),
      cumsumFrom (a + b) xs = (cumsumFrom b xs).map (fun y => a + y) := by
  intro xs
  induction xs with
  | nil => intro b; simp [cumsumFrom]
  | cons x t ih =>
    intro b
    simp only [cumsumFrom, List.map_cons]
    refine List.cons_eq_cons.mpr ⟨by ring, ?_⟩
    rw [show a + b + x = a + (b + x) by ring]
    exact ih (b + x)

/-- Lemma: `cumsumFrom` preserves length. -/
theorem length_cumsumFrom :
    ∀ (xs : List ℚ) (acc : ℚ), (cumsumFrom acc xs).length = xs.length := by
  intro xs
  induction xs with
  | nil => intro acc; rfl
  | cons x t ih => intro acc; simp [cumsumFrom, ih]

/-- Summing a constant shift over a list. -/
theorem sum_map_const_add (a : ℚ) :
    ∀ l : List ℚ, (l.map (fun y => a + y)).sum = (l.length : ℚ) * a + l.sum := by
  intro l
  induction l with
  | nil => simp
  | cons x t ih =>
    simp only [List.map_cons, List.sum_cons, List.length_cons, ih]
    push_cast
    ring

/-- Head recurrence for the sum of the cumulative sums:
`Σ cumsum (x :: t) = (|t| + 1)·x + Σ cumsum t`. -/
theorem sum_cumsum_cons (x : ℚ) (t : List ℚ) :
    (cumsum (x :: t)).sum = ((t.length : ℚ) + 1) * x + (cumsum t).sum := by
  simp only [cumsum, cumsumFrom, List.sum_cons]
  rw [show (0 : ℚ) + x = x + 0 by ring, cumsumFrom_add x t 0, sum_map_const_add,
    length_cumsumFrom]
  ring

/-- For a lower bound `a` of a list, `|t|·a ≤ Σ t`. -/
theorem sorted_head_mul_le (a : ℚ) :
    ∀ t : List ℚ, (∀ b ∈ t, a ≤ b) → (t.length : ℚ) * a ≤ t.sum := by
  intro t
  induction t with
  | nil => intro _; simp
  | cons b t2 ih =>
    intro h
    have hb : a ≤ b := h b (List.mem_cons_self b t2)
    have ht2 := ih (fun c hc => h c (List.mem_cons_of_mem b hc))
    simp only [List.length_cons, List.sum_cons]
    push_cast
    linarith

/-- For an ascending list, `2·Σ cumsum xs ≤ (|xs| + 1)·Σ xs` — the
numerator bound behind `gini ≥ 0`. -/
theorem two_mul_sum_cumsum_le :
    ∀ xs : List ℚ, List.Sorted (fun a b => a ≤ b) xs →
      2 * (cumsum xs).sum ≤ ((xs.length : ℚ) + 1) * xs.sum := by
  intro xs
  induction xs with
  | nil => intro _; simp [cumsum, cumsumFrom]
  | cons x t ih =>
    intro h
    rw [List.sorted_cons] at h
    have h3 := sorted_head_mul_le x t h.1
    have h4 := ih h.2
    rw [sum_cumsum_cons, List.sum_cons, List.length_cons]
    push_cast
    linarith

/-- For a nonnegative list, `Σ xs ≤ Σ cumsum xs` — behind `gini ≤ 1`. -/
theorem sum_le_sum_cumsum :
    ∀ xs : List ℚ, (∀ x ∈ xs, 0 ≤ x) → xs.sum ≤ (cumsum xs).sum := by
  intro xs
  induction xs with
  | nil => intro _; simp [cumsum, cumsumFrom]
  | cons x t ih =>
    intro h
    have hx : 0 ≤ x := h x (List.mem_cons_self x t)
    have ht := ih (fun c hc => h c (List.mem_cons_of_mem x hc))
    rw [sum_cumsum_cons, List.sum_cons]
    have hn : (0 : ℚ) ≤ (t.length : ℚ) := by positivity
    linarith [mul_nonneg hn hx]

/-- A constant list is ascending. -/
theorem sorted_replicate_le (n : ℕ) (c : ℚ) :
    List.Sorted (fun a b => a ≤ b) (List.replicate n c) := by
  induction n with
  | zero => simp
  | succ k ih =>
    rw [List.replicate_succ, List.sorted_cons]
    exact ⟨fun b hb => by rw [List.eq_of_mem_replicate hb], ih⟩

/-- Sorting a constant list is the identity. -/
theorem insertionSort_replicate (n : ℕ) (c : ℚ) :
    List.insertionSort (fun a b => a ≤ b) (List.replicate n c) =
      List.replicate n c :=
  (sorted_replicate_le n c).insertionSort_eq

/-- Lemma: `2·Σ cumsum` of a constant list: `c·n·(n+1)`. -/
theorem two_mul_sum_cumsum_replicate (c : ℚ) :
    ∀ n : ℕ, 2 * (cumsum (List.replicate n c)).sum = c * n * (n + 1) := by
  intro n
  induction n with
  | zero => simp [cumsum, cumsumFrom]
  | succ k ih =>
    rw [List.replicate_succ, sum_cumsum_cons, List.length_replicate]
    push_cast
    push_cast at ih
    linear_combination ih

/-- C7: the Gini coefficient of enhanced_analyzer.py:327-332 lies in
[0, 1] for every nonempty, nonnegative revenue distribution with
positive total, and equals 0 when all revenues are identical (and
positive, so that the guard `cumsum[-1] > 0` passes). -/
theorem gini_coefficient_bounds :
    (∀ revs : List ℚ, revs ≠ [] → (∀ x ∈ revs, 0 ≤ x) → 0 < revs.sum →
        0 ≤ gini_coefficient revs ∧ gini_coefficient revs ≤ 1) ∧
    (∀ (n : ℕ) (c : ℚ), 0 < n → 0 < c →
        gini_coefficient (List.replicate n c) = 0) := by
  constructor
  · intro revs hne hnn hpos
    have hperm := List.perm_insertionSort (fun a b => a ≤ b) revs
    set s := List.insertionSort (fun a b => a ≤ b) revs with hs
    have hsum : s.sum = revs.sum := hperm.sum_eq
    have hsorted : List.Sorted (fun a b => a ≤ b) s :=
      List.sorted_insertionSort (fun a b => a ≤ b) revs
    have hnn2 : ∀ x ∈ s, 0 ≤ x := fun x hx => hnn x (hperm.mem_iff.mp hx)
    have hne2 : s ≠ [] := by
      intro hcon
      rw [hcon] at hsum
      simp at hsum
      rw [← hsum] at hpos
      exact lt_irrefl 0 hpos
    have htot : lastD 0 (cumsum s) = s.sum := by
      rw [cumsum, lastD_cumsumFrom s 0 0 hne2, zero_add]
    have hval : gini_coefficient revs =
        ((s.length : ℚ) + 1 - 2 * (cumsum s).sum / s.sum) / (s.length : ℚ) := by
      simp only [gini_coefficient]
      rw [← hs, htot, if_pos (by rw [hsum]; exact hpos)]
    have hn : (0 : ℚ) < (s.length : ℚ) := by
      have hlp : 0 < s.length := List.length_pos.mpr hne2
      exact_mod_cast hlp
    have hS : (0 : ℚ) < s.sum := by rw [hsum]; exact hpos
    have hW2 := two_mul_sum_cumsum_le s hsorted
    have hSW := sum_le_sum_cumsum s hnn2
    rw [hval]
    constructor
    · apply div_nonneg _ (le_of_lt hn)
      rw [sub_nonneg, div_le_iff₀ hS]
      linarith
    · rw [div_le_one hn]
      have h1 : 1 ≤ 2 * (cumsum s).sum / s.sum := by
        rw [le_div_iff₀ hS]
        linarith
      linarith
  · intro n c hn hc
    have hrep := insertionSort_replicate n c
    have hSrep : (List.replicate n c).sum = (n : ℚ) * c := by
      simp [List.sum_replicate, nsmul_eq_mul]
    have hne2 : List.replicate n c ≠ [] := by
      apply List.ne_nil_of_length_pos
      rw [List.length_replicate]
      exact hn
    have htot : lastD 0 (cumsum (List.replicate n c)) = (n : ℚ) * c := by
      rw [cumsum, lastD_cumsumFrom _ 0 0 hne2, zero_add, hSrep]
    have hpos : (0 : ℚ) < (n : ℚ) * c := mul_pos (by exact_mod_cast hn) hc
    have h2W := two_mul_sum_cumsum_replicate c n
    have hnq : ((n : ℚ)) ≠ 0 := by
      have : (0 : ℚ) < (n : ℚ) := by exact_mod_cast hn
      exact ne_of_gt this
    have hcq : c ≠ 0 := ne_of_gt hc
    simp only [gini_coefficient]
    rw [hrep, htot, if_pos hpos, List.length_replicate]
    have hdiv : 2 * (cumsum (List.replicate n c)).sum / ((n : ℚ) * c) = (n : ℚ) + 1 := by
      rw [h2W]
      field_simp
      ring
    rw [hdiv]
    simp

/-- C7, witness: the bounds applied to the scenario-D revenue list, and
the identical-revenue case at three SKUs of revenue 5, hypotheses
discharged concretely. -/
theorem gini_coefficient_bounds_witness :
    (0 ≤ gini_coefficient [100, 50, 10] ∧ gini_coefficient [100, 50, 10] ≤ 1) ∧
    gini_coefficient (List.replicate 3 5) = 0 :=
  ⟨gini_coefficient_bounds.1 [100, 50, 10] (by decide) (by decide) (by decide),
   gini_coefficient_bounds.2 3 5 (by norm_num) (by norm_num)⟩
